import Mathlib

/-
  Shallow embedding of the core of the x-lugoo/vm user-space virtual machine
  monitor (src/kvm.c, src/main.c, src/bios/bios-rom.S), together with theorems
  settling the specification claims about it.

  Machine integers are modelled as Nat with explicit truncation where the C
  code can overflow; guest memory is a function from guest-physical addresses
  to byte values; host pointers are modelled as Nat addresses.
-/

set_option maxRecDepth 8000

/- ----------------------------------------------------------------
   Part 1: exit-dispatch loop of main (src/main.c lines 229-287)
   ---------------------------------------------------------------- -/

/-- Exit reasons reported by the hypervisor in the shared run area, following
the kvm_exit_reasons table of src/kvm.c lines 33-52. -/
inductive KvmExitReason where
  | unknown
  | exception
  | io
  | hypercall
  | debug
  | hlt
  | mmio
  | irqWindowOpen
  | shutdown
  | failEntry
  | intr
  | setTpr
  | tprAccess
  | s390Sieic
  | s390Reset
  | dcr
  | nmi
  | internalError
deriving DecidableEq

/-- One return of the hypervisor run operation: the exit reason from the run
area, together with the result the external io and mmio device handlers would
report for this exit (true means handled). -/
structure ExitEvent where
  reason : KvmExitReason
  ioHandled : Bool
  mmioHandled : Bool
deriving DecidableEq

/-- Outcome of one iteration of the dispatch switch in main. -/
inductive LoopAction where
  | contLoop
  | exitKvm
deriving DecidableEq

/-- The switch statement of the run loop in main (src/main.c lines 232-270):
KVM_EXIT_DEBUG dumps state and continues, KVM_EXIT_IO and KVM_EXIT_MMIO
continue only when the device handler returned true, KVM_EXIT_INTR invokes
the serial interrupt injector and continues, and every other exit reason
takes the default branch to the exit_kvm label. -/
def dispatch_exit (e : ExitEvent) : LoopAction :=
  match e.reason with
  | .debug => .contLoop
  | .io => if e.ioHandled then .contLoop else .exitKvm
  | .mmio => if e.mmioHandled then .contLoop else .exitKvm
  | .intr => .contLoop
  | _ => .exitKvm

/-- The value main returns after the exit_kvm label (src/main.c line 286). -/
def main_exit_kvm_return : Nat := 0

/-- The run loop of main driven by a finite schedule of exit events: each
iteration runs the guest and dispatches on the exit reason; leaving the loop
through exit_kvm ends main with main_exit_kvm_return. Returns none when the
schedule is exhausted with the loop still running. -/
def run_loop : List ExitEvent → Option Nat
  | [] => none
  | e :: rest =>
    match dispatch_exit e with
    | .contLoop => run_loop rest
    | .exitKvm => some main_exit_kvm_return

/- ----------------------------------------------------------------
   Part 2: guest memory translation helpers (src/kvm.c lines 73-93)
   ---------------------------------------------------------------- -/

/-- Membership test host_ptr_in_ram of src/kvm.c line 73: ram_start is the
host address of the backing buffer and the pointer p is a host address. -/
def host_ptr_in_ram (ramStart ramSize p : Nat) : Bool :=
  decide (ramStart ≤ p) && decide (p < ramStart + ramSize)

/-- segment_to_flat of src/kvm.c line 78: the uint32 computation
((uint32_t)selector << 4) + (uint32_t)offset. -/
def segment_to_flat (selector offset : Nat) : Nat :=
  ((selector <<< 4) + offset) % 2 ^ 32

/-- guest_flat_to_host of src/kvm.c line 83: adds the flat guest-physical
offset to the host base address of the RAM buffer. -/
def guest_flat_to_host (ramStart offset : Nat) : Nat :=
  ramStart + offset

/-- guest_real_to_host of src/kvm.c line 88: converts segment:offset to a
flat address then translates it to a host pointer. -/
def guest_real_to_host (ramStart selector offset : Nat) : Nat :=
  guest_flat_to_host ramStart (segment_to_flat selector offset)

/- ----------------------------------------------------------------
   Part 3: BIOS stubs (src/bios/bios-rom.S)
   ---------------------------------------------------------------- -/

/-- State touched by the bios_int10 stub: the bytes of the VGA RAM segment
addressed through fs (indexed by 16-bit offset), and the private cursor word
that the stub reads through cs. -/
structure Int10State where
  vga : Nat → Nat
  csCursor : Nat

/-- The bios_int10 handler of src/bios/bios-rom.S lines 29-64, as executed.
The dispatch instruction is test 0x0e, ah followed by jne: test computes the
bitwise AND of ah and 0x0e, so the putchar path is taken exactly when
ah AND 0x0e is zero, and the handler returns via IRET untouched otherwise.
On the putchar path: bx is loaded with the cursor word read through cs, al is
stored to fs:(bx), bx is incremented, then test VGA_PAGE_SIZE, bx clears the
carry flag, so the following jb is never taken and xor bx, bx always zeroes
bx; finally the 16-bit bx (now zero) is stored to fs:(cursor), i.e. into VGA
RAM at the offset of the cursor label (cursorOff), not into the private word
read through cs. -/
def bios_int10 (cursorOff ah al : Nat) (st : Int10State) : Int10State :=
  if ah &&& 0x0e ≠ 0 then
    st
  else
    let bx0 := st.csCursor % 2 ^ 16
    let vga1 : Nat → Nat := fun i => if i = bx0 then al % 2 ^ 8 else st.vga i
    let bxNew : Nat := 0
    let vga2 : Nat → Nat := fun i =>
      if i = cursorOff then bxNew % 2 ^ 8
      else if i = cursorOff + 1 then bxNew / 2 ^ 8 % 2 ^ 8
      else vga1 i
    { vga := vga2, csCursor := st.csCursor }

/-- The bios_int15 handler of src/bios/bios-rom.S lines 66-95, restricted to
its effect on the saved EFLAGS image of the IRET frame (the 32 bits that the
andl at offset 4 from the stack pointer operates on). When eax equals 0xE820
the handler calls the e820_query_map trampoline and then clears the carry
bit in the saved image; for any other eax it jumps straight to IRET and the
saved image is left untouched. -/
def bios_int15_saved_flags (eax savedFlags : Nat) : Nat :=
  if eax = 0xE820 then savedFlags &&& (2 ^ 32 - 2) else savedFlags

/- ----------------------------------------------------------------
   Part 4: guest memory as a byte map, and the kernel loader
   (src/kvm.c lines 236-412)
   ---------------------------------------------------------------- -/

/-- Guest physical memory modelled as a byte map. writeBytes m a bs is the
memory after a memcpy of the byte list bs to guest-physical address a. -/
def writeBytes (m : Nat → Nat) (a : Nat) (bs : List Nat) : Nat → Nat :=
  fun x => if a ≤ x ∧ x < a + bs.length then bs.getD (x - a) 0 else m x

/-- Little-endian byte image of a 16-bit store. -/
def bytes16 (v : Nat) : List Nat :=
  [v % 2 ^ 8, v / 2 ^ 8 % 2 ^ 8]

/-- Little-endian byte image of a 32-bit store. -/
def bytes32 (v : Nat) : List Nat :=
  [v % 2 ^ 8, v / 2 ^ 8 % 2 ^ 8, v / 2 ^ 16 % 2 ^ 8, v / 2 ^ 24 % 2 ^ 8]

/-- Little-endian 16-bit read from a file image (a byte list). -/
def fileLe16 (f : List Nat) (off : Nat) : Nat :=
  f.getD off 0 + 2 ^ 8 * f.getD (off + 1) 0

/-- Little-endian 32-bit read from a file image. -/
def fileLe32 (f : List Nat) (off : Nat) : Nat :=
  f.getD off 0 + 2 ^ 8 * f.getD (off + 1) 0
    + 2 ^ 16 * f.getD (off + 2) 0 + 2 ^ 24 * f.getD (off + 3) 0

/- Boot-protocol constants of src/kvm.c lines 236-242 and 268-272. -/

def BOOT_LOADER_SELECTOR : Nat := 0x1000
def BOOT_LOADER_IP : Nat := 0x0000
def BOOT_LOADER_SP : Nat := 0x8000
def BOOT_CMDLINE_OFFSET : Nat := 0x20000
def BOOT_PROTOCOL_REQUIRED : Nat := 0x202
def BZ_KERNEL_START : Nat := 0x100000
def BZ_DEFAULT_SETUP_SECTS : Nat := 4
def CAN_USE_HEAP : Nat := 0x80

/- Field offsets of the boot_params setup header read and patched by the
loader. struct boot_params (asm/bootparam.h) places the packed setup_header
at offset 0x1f1; the absolute offsets below are the documented boot-protocol
offsets of the fields the loader touches. -/

def hdrOffSetupSects : Nat := 0x1f1
def hdrOffMagic : Nat := 0x202
def hdrOffVersion : Nat := 0x206
def hdrOffTypeOfLoader : Nat := 0x210
def hdrOffLoadflags : Nat := 0x211
def hdrOffHeapEndPtr : Nat := 0x224
def hdrOffCmdLinePtr : Nat := 0x228
def hdrOffCmdlineSize : Nat := 0x238

/-- The memcmp of the first four header bytes at offset 0x202 against the
BZIMAGE_MAGIC string "HdrS" (src/kvm.c line 295); byte values 72 100 114 83. -/
def bz_magic_ok (f : List Nat) : Bool :=
  (f.getD hdrOffMagic 0 == 72) && (f.getD (hdrOffMagic + 1) 0 == 100)
    && (f.getD (hdrOffMagic + 2) 0 == 114) && (f.getD (hdrOffMagic + 3) 0 == 83)

/-- The boot-protocol version field boot.hdr.version. -/
def hdr_version (f : List Nat) : Nat :=
  fileLe16 f hdrOffVersion

/-- The setup_sects field after the default of src/kvm.c lines 306-307:
a zero field is replaced by BZ_DEFAULT_SETUP_SECTS. -/
def bz_setup_sects (f : List Nat) : Nat :=
  if f.getD hdrOffSetupSects 0 = 0 then BZ_DEFAULT_SETUP_SECTS
  else f.getD hdrOffSetupSects 0

/-- setup_size of src/kvm.c lines 308-310: (setup_sects + 1) shifted left
by 9, i.e. (setup_sects + 1) * 512 bytes of real-mode setup. -/
def bz_setup_size (f : List Nat) : Nat :=
  (bz_setup_sects f + 1) * 512

/-- The cmdline_size field of the setup header. -/
def hdr_cmdline_size (f : List Nat) : Nat :=
  fileLe32 f hdrOffCmdlineSize

/- Interrupt table (component 3). interrupt_table__setup, __set and __copy
live in interrupt.c, which is not under src/; they are modelled from the
spec sections 4.3 and 6: a 256-entry staging table of segment:offset pairs,
written to guest RAM 4 bytes per entry, offset first, little-endian. An
entry is modelled as a pair (segment, offset). -/

/-- Modelled from the spec: interrupt_table__setup of the absent
interrupt.c fills all 256 staged entries with the default descriptor. -/
def interrupt_table_setup (d : Nat × Nat) : Nat → Nat × Nat :=
  fun _ => d

/-- Modelled from the spec: interrupt_table__set of the absent interrupt.c
overwrites the single staged entry at the given vector. -/
def interrupt_table_set (t : Nat → Nat × Nat) (d : Nat × Nat) (vec : Nat) :
    Nat → Nat × Nat :=
  fun v => if v = vec then d else t v

/-- Modelled from the spec: the canonical 4-byte wire image of one IVT
entry, offset first then segment, both little-endian. -/
def ivt_entry_bytes (e : Nat × Nat) : List Nat :=
  [e.2 % 2 ^ 8, e.2 / 2 ^ 8 % 2 ^ 8, e.1 % 2 ^ 8, e.1 / 2 ^ 8 % 2 ^ 8]

/-- Modelled from the spec: the byte image of the first n IVT entries as
interrupt_table__copy lays them out at guest linear 0. -/
def ivt_build (t : Nat → Nat × Nat) : Nat → List Nat
  | 0 => []
  | n + 1 => ivt_build t n ++ ivt_entry_bytes (t n)

/-- Modelled from the spec: the full 256-entry, 1024-byte IVT image. -/
def ivt_bytes (t : Nat → Nat × Nat) : List Nat :=
  ivt_build t 256

/- BIOS placement constants. BDA_START, BIOS_INTR_NEXT and REAL_SEGMENT come
from kvm/bios.h, which is not under src/. -/

/-- Modelled from the spec: the BIOS Data Area reservation starts at guest
linear 0x400 (spec sections 3 and Glossary). -/
def BDA_START : Nat := 0x400

/-- Modelled from the spec: BIOS_INTR_NEXT(addr, 16) of the absent
kvm/bios.h aligns a BDA address up to the next 16-byte boundary, matching
the spec requirement that stubs be placed at 16-byte-aligned addresses. -/
def bios_intr_next (addr : Nat) : Nat :=
  (addr + 15) / 16 * 16

/-- Modelled from the spec: REAL_SEGMENT(addr) of the absent kvm/bios.h is
the real-mode segment whose base is the given 16-byte-aligned address. -/
def REAL_SEGMENT (addr : Nat) : Nat :=
  addr >>> 4

/-- The assembled BIOS stub blobs (bios_intfake and bios_int10 of
src/bios/bios-rom.S) as opaque byte ranges with known begin and end labels,
exactly as kvm.c treats them. -/
structure BiosBlobs where
  intfake : List Nat
  int10 : List Nat

/-- Store 1 of load_bzimage (src/kvm.c lines 311-314): the first setup_size
file bytes are read to BOOT_LOADER_SELECTOR:BOOT_LOADER_IP (linear 0x10000). -/
def bz_mem_setup (f : List Nat) (m0 : Nat → Nat) : Nat → Nat :=
  writeBytes m0 (segment_to_flat BOOT_LOADER_SELECTOR BOOT_LOADER_IP)
    (f.take (bz_setup_size f))

/-- Store 2 of load_bzimage (src/kvm.c lines 316-319): the remainder of the
file is read to linear BZ_KERNEL_START. -/
def bz_mem_kernel (f : List Nat) (m : Nat → Nat) : Nat → Nat :=
  writeBytes m BZ_KERNEL_START (f.drop (bz_setup_size f))

/-- Store 3 of load_bzimage (src/kvm.c lines 321-329): when a command line
is given, the reserved cmdline_size-byte region at BOOT_CMDLINE_OFFSET is
zeroed by memset and then min(strlen+1, cmdline_size) - 1 command-line bytes
are copied in by memcpy. The C code computes the memcpy length as a size_t
subtraction, so a header cmdline_size of zero would wrap; theorems below
therefore assume a positive cmdline_size. -/
def bz_mem_cmdline (f : List Nat) (cmd : Option (List Nat)) (m : Nat → Nat) :
    Nat → Nat :=
  match cmd with
  | none => m
  | some k =>
    writeBytes
      (writeBytes m BOOT_CMDLINE_OFFSET (List.replicate (hdr_cmdline_size f) 0))
      BOOT_CMDLINE_OFFSET
      (k.take (min (k.length + 1) (hdr_cmdline_size f) - 1))

/-- The first three header patches of load_bzimage (src/kvm.c lines 340-347):
cmd_line_ptr is set to BOOT_CMDLINE_OFFSET, type_of_loader to 0xff and
heap_end_ptr to 0xfe00, each at its offset inside the setup image at
selector 0x1000. -/
def bz_mem_patch3 (m : Nat → Nat) : Nat → Nat :=
  writeBytes
    (writeBytes
      (writeBytes m (segment_to_flat BOOT_LOADER_SELECTOR hdrOffCmdLinePtr)
        (bytes32 BOOT_CMDLINE_OFFSET))
      (segment_to_flat BOOT_LOADER_SELECTOR hdrOffTypeOfLoader) [0xff])
    (segment_to_flat BOOT_LOADER_SELECTOR hdrOffHeapEndPtr) (bytes16 0xfe00)

/-- All four header patches of load_bzimage (src/kvm.c lines 340-350): after
the three direct stores of bz_mem_patch3, the loadflags byte is read back
from guest memory and stored again with CAN_USE_HEAP or-ed in. -/
def bz_mem_patches (m : Nat → Nat) : Nat → Nat :=
  writeBytes (bz_mem_patch3 m) (segment_to_flat BOOT_LOADER_SELECTOR hdrOffLoadflags)
    [bz_mem_patch3 m (segment_to_flat BOOT_LOADER_SELECTOR hdrOffLoadflags) ||| CAN_USE_HEAP]

/-- The BIOS installation of load_bzimage (src/kvm.c lines 360-385): the
intfake stub is copied to the first 16-byte-aligned BDA address, the int10
stub to the next 16-byte-aligned address after it, the staging table is
filled with the intfake descriptor and overridden at vector 0x10, and the
IVT image is written to guest linear 0. -/
def bz_mem_bios (bios : BiosBlobs) (m : Nat → Nat) : Nat → Nat :=
  writeBytes
    (writeBytes
      (writeBytes m (bios_intr_next (BDA_START + 0)) bios.intfake)
      (bios_intr_next (BDA_START + bios.intfake.length)) bios.int10)
    0
    (ivt_bytes (interrupt_table_set
      (interrupt_table_setup (REAL_SEGMENT (bios_intr_next (BDA_START + 0)), 0))
      (REAL_SEGMENT (bios_intr_next (BDA_START + bios.intfake.length)), 0) 0x10))

/-- The guest memory produced by a successful load_bzimage run (src/kvm.c
lines 290-385): the five store groups above applied to the initial RAM
contents m0 in the order the C code performs them. -/
def bz_final_mem (bios : BiosBlobs) (f : List Nat) (cmd : Option (List Nat))
    (m0 : Nat → Nat) : Nat → Nat :=
  bz_mem_bios bios
    (bz_mem_patches (bz_mem_cmdline f cmd (bz_mem_kernel f (bz_mem_setup f m0))))

/-- The state a successful loader run leaves behind: the guest memory and
the boot_selector, boot_ip and boot_sp fields of struct kvm. -/
structure LoadedKernel where
  mem : Nat → Nat
  bootSelector : Nat
  bootIp : Nat
  bootSp : Nat

/-- Result of load_bzimage: soft is the C return false (taken both on magic
mismatch and on a too-old protocol version), fatalRead is the die_perror
inside the loader when the setup read comes up short, and ok carries the
loaded state of a true return. -/
inductive BzOutcome where
  | soft
  | fatalRead
  | ok (st : LoadedKernel)

/-- load_bzimage of src/kvm.c lines 274-388. The header is read from the
start of the file; a magic mismatch returns false, and a protocol version
below BOOT_PROTOCOL_REQUIRED prints a warning and also returns false. The
setup read of setup_size bytes dies when the file is shorter than that.
Otherwise the loader performs the stores of bz_final_mem and returns true
with boot_selector 0x1000, boot_ip BOOT_LOADER_IP + 0x200 and boot_sp
BOOT_LOADER_SP. -/
def load_bzimage (bios : BiosBlobs) (f : List Nat) (cmd : Option (List Nat))
    (m0 : Nat → Nat) : BzOutcome :=
  if bz_magic_ok f = false then .soft
  else if hdr_version f < BOOT_PROTOCOL_REQUIRED then .soft
  else if f.length < bz_setup_size f then .fatalRead
  else .ok
    { mem := bz_final_mem bios f cmd m0
      bootSelector := BOOT_LOADER_SELECTOR
      bootIp := BOOT_LOADER_IP + 0x200
      bootSp := BOOT_LOADER_SP }

/-- load_flat_binary of src/kvm.c lines 244-262: the whole file is read to
BOOT_LOADER_SELECTOR:BOOT_LOADER_IP and the function unconditionally
returns true; the Option mirrors the C int return, with some for true. -/
def load_flat_binary (f : List Nat) (m0 : Nat → Nat) : Option LoadedKernel :=
  some
    { mem := writeBytes m0 (segment_to_flat BOOT_LOADER_SELECTOR BOOT_LOADER_IP) f
      bootSelector := BOOT_LOADER_SELECTOR
      bootIp := BOOT_LOADER_IP
      bootSp := BOOT_LOADER_SP }

/-- Result of kvm__load_kernel: ok for a loader success, fatalRead for a die
inside load_bzimage, and notValid for the final die at src/kvm.c line 408
(reached only if both recognizers report failure). -/
inductive KernOutcome where
  | ok (st : LoadedKernel)
  | fatalRead
  | notValid

/-- kvm__load_kernel of src/kvm.c lines 390-412 on an opened file: try
load_bzimage; on a true return we are done; on a false return try
load_flat_binary; a die inside load_bzimage aborts; the final die branch
fires only if load_flat_binary also returns false. -/
def kvm_load_kernel (bios : BiosBlobs) (f : List Nat) (cmd : Option (List Nat))
    (m0 : Nat → Nat) : KernOutcome :=
  match load_bzimage bios f cmd m0 with
  | .ok st => .ok st
  | .fatalRead => .fatalRead
  | .soft =>
    match load_flat_binary f m0 with
    | some st => .ok st
    | none => .notValid

/-- Discriminator used to state outcomes of load_bzimage concretely. -/
def BzOutcome.isSoft : BzOutcome → Bool
  | .soft => true
  | _ => false

/-- Discriminator for the die inside load_bzimage. -/
def BzOutcome.isFatalRead : BzOutcome → Bool
  | .fatalRead => true
  | _ => false

/-- Discriminator for the die inside load_bzimage as surfaced by
kvm_load_kernel. -/
def KernOutcome.isFatalRead : KernOutcome → Bool
  | .fatalRead => true
  | _ => false

/-- Discriminator for the final die branch of kvm_load_kernel. -/
def KernOutcome.isNotValid : KernOutcome → Bool
  | .notValid => true
  | _ => false

/-- The chosen entry point of a kvm_load_kernel success. -/
def KernOutcome.entry : KernOutcome → Option (Nat × Nat × Nat)
  | .ok st => some (st.bootSelector, st.bootIp, st.bootSp)
  | _ => none

/- ----------------------------------------------------------------
   Part 5: CPU bring-up (src/kvm.c lines 442-560)
   ---------------------------------------------------------------- -/

/-- One segment register as the hypervisor reports it (struct kvm_segment
restricted to the fields the claims mention). -/
structure KvmSegment where
  selector : Nat
  base : Nat
  limit : Nat
deriving DecidableEq

/-- A descriptor-table register (struct kvm_dtable). -/
structure KvmDtable where
  base : Nat
  limit : Nat
deriving DecidableEq

/-- The special-register file (struct kvm_sregs restricted to the fields the
claims mention). -/
structure KvmSregs where
  cs : KvmSegment
  ss : KvmSegment
  ds : KvmSegment
  es : KvmSegment
  fs : KvmSegment
  gs : KvmSegment
  tr : KvmSegment
  ldt : KvmSegment
  gdt : KvmDtable
  idt : KvmDtable
deriving DecidableEq

/-- selector_to_base of src/kvm.c line 442: the uint32 product selector
times 16. -/
def selector_to_base (selector : Nat) : Nat :=
  selector * 16 % 2 ^ 32

/-- kvm__setup_sregs of src/kvm.c lines 528-549: starting from the sregs
value the hypervisor returned, overwrite the selector and base of CS, SS,
DS, ES, FS and GS with the boot selector and its real-mode base; every
other field is left as returned. -/
def kvm_setup_sregs (s : KvmSregs) (bootSelector : Nat) : KvmSregs :=
  { s with
    cs := { s.cs with selector := bootSelector, base := selector_to_base bootSelector }
    ss := { s.ss with selector := bootSelector, base := selector_to_base bootSelector }
    ds := { s.ds with selector := bootSelector, base := selector_to_base bootSelector }
    es := { s.es with selector := bootSelector, base := selector_to_base bootSelector }
    fs := { s.fs with selector := bootSelector, base := selector_to_base bootSelector }
    gs := { s.gs with selector := bootSelector, base := selector_to_base bootSelector } }

/-- The general-purpose register file seeded by kvm__setup_regs (struct
kvm_regs restricted to the fields the C initializer names; the remaining
registers of the designated initializer are zero). -/
structure KvmRegs where
  rflags : Nat
  rip : Nat
  rsp : Nat
  rbp : Nat
deriving DecidableEq

/-- kvm__setup_regs of src/kvm.c lines 510-526: rflags 0x2, rip boot_ip,
rsp and rbp boot_sp; the USHRT_MAX guard dies when rip exceeds 0xFFFF, so
none models the fatal path and some the registers actually installed. -/
def kvm_setup_regs (bootIp bootSp : Nat) : Option KvmRegs :=
  let regs : KvmRegs := { rflags := 0x2, rip := bootIp, rsp := bootSp, rbp := bootSp }
  if regs.rip > 0xFFFF then none else some regs

/- ----------------------------------------------------------------
   Part 6: concrete data used by counterexamples and witnesses
   ---------------------------------------------------------------- -/

/-- The set of setup-image addresses overwritten by the header patches of
load_bzimage: the type_of_loader byte at 0x10210, the loadflags byte at
0x10211, the two heap_end_ptr bytes at 0x10224 and the four cmd_line_ptr
bytes at 0x10228. -/
def bz_patched (x : Nat) : Bool :=
  (x == 0x10210) || (x == 0x10211) || (x == 0x10224) || (x == 0x10225)
    || (decide (0x10228 ≤ x) && decide (x < 0x1022c))

/-- Guest RAM that is zero everywhere, standing for the initial contents of
the backing buffer in concrete runs. -/
def zeroMem : Nat → Nat :=
  fun _ => 0

/-- Concrete assembled stub blobs for concrete runs: a one-byte IRET for
intfake and a 35-byte blob for int10. -/
def biosSample : BiosBlobs :=
  { intfake := [0xcf], int10 := List.replicate 35 0x90 }

/-- A synthetic bzImage: setup_sects 1 (so a 1024-byte setup), magic HdrS at
0x202, protocol version 0x0202, cmdline_size 64, and a 2-byte protected-mode
payload. -/
def bzFileA : List Nat :=
  List.replicate 0x1f1 0 ++ [1] ++ List.replicate 0x10 0
    ++ [72, 100, 114, 83] ++ [2, 2] ++ List.replicate 0x30 0
    ++ [64, 0, 0, 0] ++ List.replicate 0x1c4 0 ++ [0xAA, 0xBB]

/-- A synthetic bzImage with cmdline_size 8, used for the command-line
truncation scenario. -/
def bzFileB : List Nat :=
  List.replicate 0x1f1 0 ++ [1] ++ List.replicate 0x10 0
    ++ [72, 100, 114, 83] ++ [2, 2] ++ List.replicate 0x30 0
    ++ [8, 0, 0, 0] ++ List.replicate 0x1c4 0

/-- The command line abcdefghij of the truncation scenario, as bytes. -/
def cmdlineSampleLong : List Nat :=
  [97, 98, 99, 100, 101, 102, 103, 104, 105, 106]

/-- A 1 KiB buffer whose setup header carries the HdrS magic at 0x202 but
protocol version 0x0201, below the required minimum. -/
def bzFileOld : List Nat :=
  List.replicate 0x1f1 0 ++ [1] ++ List.replicate 0x10 0
    ++ [72, 100, 114, 83] ++ [1, 2] ++ List.replicate (0x400 - 0x208) 0

/-- A 528-byte truncated bzImage: valid magic and version, setup_sects 0
(defaulted to 4, so a 2560-byte setup), but the file ends long before the
setup region does, so the setup read dies. -/
def bzFileShort : List Nat :=
  List.replicate 0x1f1 0 ++ [0] ++ List.replicate 0x10 0
    ++ [72, 100, 114, 83] ++ [2, 2] ++ List.replicate (0x210 - 0x208) 0

/-- A concrete sregs value standing for what the hypervisor returns from
KVM_GET_SREGS in the bring-up witness. -/
def sregsSample : KvmSregs :=
  { cs := ⟨0xF000, 0xFFFF0000, 0xFFFF⟩
    ss := ⟨0, 0, 0xFFFF⟩
    ds := ⟨0, 0, 0xFFFF⟩
    es := ⟨0, 0, 0xFFFF⟩
    fs := ⟨0, 0, 0xFFFF⟩
    gs := ⟨0, 0, 0xFFFF⟩
    tr := ⟨0, 0, 0xFFFF⟩
    ldt := ⟨0, 0, 0xFFFF⟩
    gdt := ⟨0, 0xFFFF⟩
    idt := ⟨0, 0xFFFF⟩ }

/- ----------------------------------------------------------------
   Theorems for the dispatch-loop claims
   ---------------------------------------------------------------- -/

/-- Claim C1, counterexample. The claim says an exit with reason HLT is
recovered locally and the loop continues; but the switch in main has no HLT
case, so a HLT exit takes the default branch and leaves the loop: on the
concrete schedule consisting of one HLT exit (with both device handlers
willing to handle anything) the dispatcher does not continue, and main
leaves the run loop. -/
theorem claim_C1_counterexample :
    dispatch_exit ⟨.hlt, true, true⟩ ≠ LoopAction.contLoop ∧
    run_loop [⟨.hlt, true, true⟩] = some main_exit_kvm_return := by
  constructor
  · decide
  · rfl

/-- Claim C1, amended: a hypervisor run returning with exit reason HLT takes
the default branch of the dispatch switch, so the monitor treats HLT as a
fatal exit and leaves the loop, regardless of the device handlers and of any
later scheduled exits. -/
theorem claim_C1_theorem (ioH mmioH : Bool) (rest : List ExitEvent) :
    dispatch_exit ⟨.hlt, ioH, mmioH⟩ = LoopAction.exitKvm ∧
    run_loop (⟨.hlt, ioH, mmioH⟩ :: rest) = some main_exit_kvm_return := by
  constructor
  · rfl
  · rfl

/-- Claim C2, counterexample. The claim says a fatal exit-dispatch path
terminates the process with exit code 1; but after the exit_kvm label main
returns 0, so with the hypervisor reporting exit_reason UNKNOWN the process
exit code is 0, not 1. -/
theorem claim_C2_counterexample :
    run_loop [⟨.unknown, true, true⟩] = some 0 ∧ main_exit_kvm_return ≠ 1 := by
  constructor
  · rfl
  · decide

/-- Claim C2, amended: whenever the monitor leaves the exit-dispatch loop on
a fatal path — an unsupported exit reason such as UNKNOWN, or an I/O or MMIO
handler returning false — main returns through the exit_kvm label and the
process exit code is 0, not 1. -/
theorem claim_C2_theorem (e : ExitEvent) (rest : List ExitEvent)
    (h : dispatch_exit e = LoopAction.exitKvm) :
    run_loop (e :: rest) = some 0 ∧ main_exit_kvm_return = 0 := by
  constructor
  · simp [run_loop, h, main_exit_kvm_return]
  · rfl

/-- Claim C2, witness: the hypothesis of claim_C2_theorem holds at the
concrete UNKNOWN exit event and yields the exit code 0. -/
theorem claim_C2_witness :
    run_loop [⟨.unknown, true, true⟩] = some 0 ∧ main_exit_kvm_return = 0 :=
  claim_C2_theorem ⟨.unknown, true, true⟩ [] (by decide)

/- ----------------------------------------------------------------
   Theorems for the BIOS stub claims
   ---------------------------------------------------------------- -/

/-- Claim C4. The stub dispatches with test 0x0e, ah (a bitwise AND) where
its own header comment documents the teletype subfunction ah = 0x0e, so the
putchar path is taken exactly when ah AND 0x0e is zero: the documented input
AH = 0x0E, AL = 0x41 returns via IRET with no effect at all, while the
undocumented AH = 0x00 does write AL to the console stream. The first
conjunct evaluates the handler at the failing input for every cursor
position, character and state; the second shows the complementary write. -/
theorem claim_C4_theorem :
    (∀ cursorOff al st, bios_int10 cursorOff 0x0e al st = st) ∧
    (bios_int10 2 0x00 0x41 ⟨fun _ => 0, 0⟩).vga 0 = 0x41 := by
  constructor
  · intro cursorOff al st
    simp [bios_int10]
  · rfl

/-- Claim C5, counterexample. The claim says every non-E820 subfunction
returns with the carry flag set; but the stub jumps straight to IRET without
touching the saved EFLAGS image, so invoking it with eax = 0x1234 and a
saved image of 0 (carry clear) returns carry still clear. -/
theorem claim_C5_counterexample :
    bios_int15_saved_flags 0x1234 0 &&& 1 ≠ 1 := by
  decide

/-- Claim C5, amended: when EAX equals 0xE820 the handler clears the carry
flag in the saved EFLAGS image on the stack before IRET; for every other
subfunction it returns via IRET with the saved EFLAGS image unchanged, the
carry flag being left exactly as the caller had it. -/
theorem claim_C5_theorem (eax savedFlags : Nat) :
    (eax = 0xE820 →
      bios_int15_saved_flags eax savedFlags = savedFlags &&& (2 ^ 32 - 2) ∧
      (bios_int15_saved_flags eax savedFlags).testBit 0 = false) ∧
    (eax ≠ 0xE820 → bios_int15_saved_flags eax savedFlags = savedFlags) := by
  constructor
  · intro h
    subst h
    refine ⟨rfl, ?_⟩
    simp [bios_int15_saved_flags, Nat.testBit_and]
  · intro h
    simp [bios_int15_saved_flags, h]

/-- Claim C5, witness: both implications of claim_C5_theorem discharged at
concrete subfunctions, with a saved image whose carry flag is set. -/
theorem claim_C5_witness :
    bios_int15_saved_flags 0xE820 0xF = 0xE ∧
    bios_int15_saved_flags 0x5301 0xF = 0xF := by
  constructor
  · have h := (claim_C5_theorem 0xE820 0xF).1 rfl
    rw [h.1]
    decide
  · exact (claim_C5_theorem 0x5301 0xF).2 (by decide)

/- ----------------------------------------------------------------
   Theorems for the address-translation claim
   ---------------------------------------------------------------- -/

/-- Claim C8. For every monitor RAM placement and every offset inside the
RAM size, guest_flat_to_host produces a host pointer inside the backing
buffer and host_ptr_in_ram accepts it; and for every 16-bit selector and
offset, guest_real_to_host agrees with guest_flat_to_host applied to the
flat address selector shifted left by 4 plus offset. -/
theorem claim_C8_theorem (ramStart ramSize off sel off2 : Nat)
    (hoff : off < ramSize) (hsel : sel < 2 ^ 16) (hoff2 : off2 < 2 ^ 16) :
    (ramStart ≤ guest_flat_to_host ramStart off ∧
     guest_flat_to_host ramStart off < ramStart + ramSize ∧
     host_ptr_in_ram ramStart ramSize (guest_flat_to_host ramStart off) = true) ∧
    guest_real_to_host ramStart sel off2 =
      guest_flat_to_host ramStart ((sel <<< 4) + off2) := by
  have hshift : sel <<< 4 = sel * 16 := by
    simp [Nat.shiftLeft_eq]
  refine ⟨⟨Nat.le_add_right _ _, by unfold guest_flat_to_host; omega, ?_⟩, ?_⟩
  · unfold host_ptr_in_ram guest_flat_to_host
    simp only [Bool.and_eq_true, decide_eq_true_eq]
    omega
  · unfold guest_real_to_host segment_to_flat guest_flat_to_host
    rw [hshift]
    omega

/-- Claim C8, witness: claim_C8_theorem discharged at a concrete RAM
placement, in-range offset and 16-bit selector:offset pair. -/
theorem claim_C8_witness :
    (1000 ≤ guest_flat_to_host 1000 7 ∧
     guest_flat_to_host 1000 7 < 1000 + 64 ∧
     host_ptr_in_ram 1000 64 (guest_flat_to_host 1000 7) = true) ∧
    guest_real_to_host 1000 0x1000 0x0200 =
      guest_flat_to_host 1000 ((0x1000 <<< 4) + 0x0200) :=
  claim_C8_theorem 1000 64 7 0x1000 0x0200 (by decide) (by decide) (by decide)

/- ----------------------------------------------------------------
   Theorems for the CPU bring-up claim
   ---------------------------------------------------------------- -/

/-- Claim C9. After kvm_setup_sregs each of CS, SS, DS, ES, FS, GS carries
the boot selector with base selector times 16, while the limits and the TR,
LDT, GDT and IDT fields are exactly what the hypervisor returned; and
kvm_setup_regs installs rflags 2, rip boot_ip, rsp and rbp boot_sp when
boot_ip fits in 16 bits, and dies (none) whenever boot_ip exceeds 0xFFFF. -/
theorem claim_C9_theorem (s : KvmSregs) (bootSel bootIp bootSp : Nat)
    (hsel : bootSel < 2 ^ 16) :
    ((kvm_setup_sregs s bootSel).cs =
        { selector := bootSel, base := bootSel * 16, limit := s.cs.limit } ∧
     (kvm_setup_sregs s bootSel).ss =
        { selector := bootSel, base := bootSel * 16, limit := s.ss.limit } ∧
     (kvm_setup_sregs s bootSel).ds =
        { selector := bootSel, base := bootSel * 16, limit := s.ds.limit } ∧
     (kvm_setup_sregs s bootSel).es =
        { selector := bootSel, base := bootSel * 16, limit := s.es.limit } ∧
     (kvm_setup_sregs s bootSel).fs =
        { selector := bootSel, base := bootSel * 16, limit := s.fs.limit } ∧
     (kvm_setup_sregs s bootSel).gs =
        { selector := bootSel, base := bootSel * 16, limit := s.gs.limit }) ∧
    ((kvm_setup_sregs s bootSel).tr = s.tr ∧
     (kvm_setup_sregs s bootSel).ldt = s.ldt ∧
     (kvm_setup_sregs s bootSel).gdt = s.gdt ∧
     (kvm_setup_sregs s bootSel).idt = s.idt) ∧
    (bootIp ≤ 0xFFFF →
      kvm_setup_regs bootIp bootSp =
        some { rflags := 2, rip := bootIp, rsp := bootSp, rbp := bootSp }) ∧
    (0xFFFF < bootIp → kvm_setup_regs bootIp bootSp = none) := by
  have hbase : selector_to_base bootSel = bootSel * 16 := by
    unfold selector_to_base
    omega
  refine ⟨⟨?_, ?_, ?_, ?_, ?_, ?_⟩, ⟨rfl, rfl, rfl, rfl⟩, ?_, ?_⟩
  · simp [kvm_setup_sregs, hbase]
  · simp [kvm_setup_sregs, hbase]
  · simp [kvm_setup_sregs, hbase]
  · simp [kvm_setup_sregs, hbase]
  · simp [kvm_setup_sregs, hbase]
  · simp [kvm_setup_sregs, hbase]
  · intro h
    simp [kvm_setup_regs]
    omega
  · intro h
    simp [kvm_setup_regs]
    omega

/-- Claim C9, witness: claim_C9_theorem discharged at the bzImage entry
state (selector 0x1000, ip 0x200, sp 0x8000) on sregsSample, together with
the fatal branch at the out-of-range ip 0x10000. -/
theorem claim_C9_witness :
    (kvm_setup_sregs sregsSample 0x1000).cs =
      { selector := 0x1000, base := 0x1000 * 16, limit := sregsSample.cs.limit } ∧
    kvm_setup_regs 0x200 0x8000 =
      some { rflags := 2, rip := 0x200, rsp := 0x8000, rbp := 0x8000 } ∧
    kvm_setup_regs 0x10000 0x8000 = none := by
  refine ⟨(claim_C9_theorem sregsSample 0x1000 0x200 0x8000 (by decide)).1.1, ?_, ?_⟩
  · exact (claim_C9_theorem sregsSample 0x1000 0x200 0x8000 (by decide)).2.2.1 (by decide)
  · exact (claim_C9_theorem sregsSample 0x1000 0x10000 0x8000 (by decide)).2.2.2 (by decide)

/- ----------------------------------------------------------------
   Helper lemmas about writeBytes and the loader store stages
   ---------------------------------------------------------------- -/

/-- Reading below a memcpy destination sees the previous memory. -/
theorem writeBytes_out_lt {m : Nat → Nat} {a : Nat} {bs : List Nat} {x : Nat}
    (h : x < a) : writeBytes m a bs x = m x := by
  unfold writeBytes
  rw [if_neg]
  omega

/-- Reading at or above the end of a memcpy destination sees the previous
memory. -/
theorem writeBytes_out_ge {m : Nat → Nat} {a : Nat} {bs : List Nat} {x : Nat}
    (h : a + bs.length ≤ x) : writeBytes m a bs x = m x := by
  unfold writeBytes
  rw [if_neg]
  omega

/-- Reading inside a memcpy destination sees the copied bytes. -/
theorem writeBytes_in {m : Nat → Nat} {a : Nat} {bs : List Nat} {x : Nat}
    (h1 : a ≤ x) (h2 : x < a + bs.length) :
    writeBytes m a bs x = bs.getD (x - a) 0 := by
  unfold writeBytes
  rw [if_pos ⟨h1, h2⟩]

/-- Element access commutes with take below the cut. -/
theorem getD_take {f : List Nat} {n i : Nat} (h : i < n) :
    (f.take n).getD i 0 = f.getD i 0 := by
  rw [List.getD_eq_getElem?_getD, List.getD_eq_getElem?_getD,
    List.getElem?_take_of_lt h]

/-- Element access of drop reads the original list beyond the cut. -/
theorem getD_drop {f : List Nat} {n j : Nat} :
    (f.drop n).getD j 0 = f.getD (n + j) 0 := by
  rw [List.getD_eq_getElem?_getD, List.getD_eq_getElem?_getD, List.getElem?_drop]

/-- Element access of replicate inside its length. -/
theorem getD_replicate {n d i : Nat} (h : i < n) :
    (List.replicate n d).getD i 0 = d := by
  rw [List.getD_eq_getElem?_getD, List.getElem?_replicate]
  simp [h]

/-- The prefix of IVT entry images built for n vectors is 4 n bytes long. -/
theorem ivt_build_length (t : Nat → Nat × Nat) (n : Nat) :
    (ivt_build t n).length = 4 * n := by
  induction n with
  | zero => rfl
  | succ k ih =>
    simp [ivt_build, ivt_entry_bytes, ih]
    omega

/-- The full IVT image is 1024 bytes long. -/
theorem ivt_bytes_length (t : Nat → Nat × Nat) : (ivt_bytes t).length = 1024 :=
  ivt_build_length t 256

/-- Aligning up never moves an address down. -/
theorem bios_intr_next_ge (a : Nat) : a ≤ bios_intr_next a := by
  unfold bios_intr_next
  omega

/-- The flat address of the real-mode setup destination. -/
theorem stf_boot_ip :
    segment_to_flat BOOT_LOADER_SELECTOR BOOT_LOADER_IP = 0x10000 := by
  decide

/-- The flat address of the type_of_loader patch. -/
theorem stf_type_of_loader :
    segment_to_flat BOOT_LOADER_SELECTOR hdrOffTypeOfLoader = 0x10210 := by
  decide

/-- The flat address of the loadflags patch. -/
theorem stf_loadflags :
    segment_to_flat BOOT_LOADER_SELECTOR hdrOffLoadflags = 0x10211 := by
  decide

/-- The flat address of the heap_end_ptr patch. -/
theorem stf_heap_end_ptr :
    segment_to_flat BOOT_LOADER_SELECTOR hdrOffHeapEndPtr = 0x10224 := by
  decide

/-- The flat address of the cmd_line_ptr patch. -/
theorem stf_cmd_line_ptr :
    segment_to_flat BOOT_LOADER_SELECTOR hdrOffCmdLinePtr = 0x10228 := by
  decide

/-- The defaulted setup size is at least two sectors (setup_sects is never
left below 1). -/
theorem bz_setup_size_ge (f : List Nat) : 1024 ≤ bz_setup_size f := by
  unfold bz_setup_size bz_setup_sects BZ_DEFAULT_SETUP_SECTS
  split
  · omega
  · rename_i h
    omega

/-- Inside the setup region, the setup store shows the file bytes. -/
theorem bz_mem_setup_in (f : List Nat) (m0 : Nat → Nat) (i : Nat)
    (hi : i < bz_setup_size f) (hlen : bz_setup_size f ≤ f.length) :
    bz_mem_setup f m0 (0x10000 + i) = f.getD i 0 := by
  unfold bz_mem_setup
  rw [stf_boot_ip, writeBytes_in (by omega)
    (by rw [List.length_take]; omega)]
  rw [Nat.add_sub_cancel_left]
  exact getD_take hi

/-- Outside the setup region, the setup store is invisible. -/
theorem bz_mem_setup_out (f : List Nat) (m0 : Nat → Nat) (x : Nat)
    (h : x < 0x10000 ∨ 0x10000 + bz_setup_size f ≤ x) :
    bz_mem_setup f m0 x = m0 x := by
  unfold bz_mem_setup
  rw [stf_boot_ip]
  rcases h with h | h
  · exact writeBytes_out_lt h
  · refine writeBytes_out_ge ?_
    rw [List.length_take]
    omega

/-- Inside the payload region, the kernel store shows the tail of the file. -/
theorem bz_mem_kernel_in (f : List Nat) (m : Nat → Nat) (j : Nat)
    (hj : j < f.length - bz_setup_size f) :
    bz_mem_kernel f m (0x100000 + j) = f.getD (bz_setup_size f + j) 0 := by
  unfold bz_mem_kernel BZ_KERNEL_START
  rw [writeBytes_in (by omega) (by rw [List.length_drop]; omega)]
  rw [Nat.add_sub_cancel_left]
  exact getD_drop

/-- Outside the payload region, the kernel store is invisible. -/
theorem bz_mem_kernel_out (f : List Nat) (m : Nat → Nat) (x : Nat)
    (h : x < 0x100000 ∨ 0x100000 + (f.length - bz_setup_size f) ≤ x) :
    bz_mem_kernel f m x = m x := by
  unfold bz_mem_kernel BZ_KERNEL_START
  rcases h with h | h
  · exact writeBytes_out_lt h
  · refine writeBytes_out_ge ?_
    rw [List.length_drop]
    omega

/-- Without a command line the command-line store does nothing. -/
theorem bz_mem_cmdline_none (f : List Nat) (m : Nat → Nat) :
    bz_mem_cmdline f none m = m :=
  rfl

/-- Outside the reserved command-line region, the command-line store is
invisible. -/
theorem bz_mem_cmdline_out (f k : List Nat) (m : Nat → Nat) (x : Nat)
    (h : x < 0x20000 ∨ 0x20000 + hdr_cmdline_size f ≤ x) :
    bz_mem_cmdline f (some k) m x = m x := by
  show writeBytes
      (writeBytes m 0x20000 (List.replicate (hdr_cmdline_size f) 0))
      0x20000 (k.take (min (k.length + 1) (hdr_cmdline_size f) - 1)) x = m x
  rcases h with h | h
  · rw [writeBytes_out_lt h, writeBytes_out_lt h]
  · rw [writeBytes_out_ge (by rw [List.length_take]; omega),
      writeBytes_out_ge (by rw [List.length_replicate]; omega)]

/-- Inside the reserved command-line region, in the truncating case (the
command line with its terminator is longer than cmdline_size), the store
leaves the first cmdline_size - 1 command-line bytes followed by zero
bytes up to the end of the region. -/
theorem bz_mem_cmdline_in_trunc (f k : List Nat) (m : Nat → Nat) (j : Nat)
    (hk : hdr_cmdline_size f ≤ k.length) (hC : 0 < hdr_cmdline_size f)
    (hj : j < hdr_cmdline_size f) :
    bz_mem_cmdline f (some k) m (0x20000 + j) =
      if j < hdr_cmdline_size f - 1 then k.getD j 0 else 0 := by
  show writeBytes
      (writeBytes m 0x20000 (List.replicate (hdr_cmdline_size f) 0))
      0x20000 (k.take (min (k.length + 1) (hdr_cmdline_size f) - 1)) (0x20000 + j) =
    if j < hdr_cmdline_size f - 1 then k.getD j 0 else 0
  have hmin : min (k.length + 1) (hdr_cmdline_size f) = hdr_cmdline_size f := by
    omega
  rw [hmin]
  by_cases hlt : j < hdr_cmdline_size f - 1
  · rw [writeBytes_in (by omega)
      (by rw [List.length_take]; omega)]
    rw [Nat.add_sub_cancel_left, if_pos hlt]
    exact getD_take hlt
  · rw [writeBytes_out_ge (by rw [List.length_take]; omega)]
    rw [writeBytes_in (by omega) (by rw [List.length_replicate]; omega)]
    rw [Nat.add_sub_cancel_left, if_neg hlt]
    exact getD_replicate hj

/-- Reading outside a memcpy destination region sees the previous memory. -/
theorem writeBytes_out {m : Nat → Nat} {a : Nat} {bs : List Nat} {x : Nat}
    (h : ¬(a ≤ x ∧ x < a + bs.length)) : writeBytes m a bs x = m x := by
  unfold writeBytes
  rw [if_neg h]

/-- The 16-bit store image is two bytes. -/
theorem length_bytes16 (v : Nat) : (bytes16 v).length = 2 :=
  rfl

/-- The 32-bit store image is four bytes. -/
theorem length_bytes32 (v : Nat) : (bytes32 v).length = 4 :=
  rfl

/-- Addresses at or beyond the end of the patched byte range are not
patched. -/
theorem bz_patched_false_of_ge (x : Nat) (h : 0x1022c ≤ x) :
    bz_patched x = false := by
  simp [bz_patched]
  omega

/-- Outside the eight patched header bytes, the patch stores are
invisible. -/
theorem bz_mem_patches_out (m : Nat → Nat) (x : Nat)
    (h : bz_patched x = false) : bz_mem_patches m x = m x := by
  simp only [bz_patched, Bool.or_eq_false_iff, beq_eq_false_iff_ne,
    Bool.and_eq_false_iff, decide_eq_false_iff_not] at h
  unfold bz_mem_patches bz_mem_patch3
  rw [stf_cmd_line_ptr, stf_type_of_loader, stf_heap_end_ptr, stf_loadflags]
  refine Eq.trans (writeBytes_out ?_)
    (Eq.trans (writeBytes_out ?_) (Eq.trans (writeBytes_out ?_) (writeBytes_out ?_)))
  · simp only [List.length_cons, List.length_nil]
    omega
  · rw [length_bytes16]
    omega
  · simp only [List.length_cons, List.length_nil]
    omega
  · rw [length_bytes32]
    omega

/-- The values of the eight patched header bytes: type_of_loader 0xff at
0x10210, the previous loadflags byte or-ed with CAN_USE_HEAP at 0x10211,
heap_end_ptr 0xfe00 little-endian at 0x10224, and cmd_line_ptr 0x20000
little-endian at 0x10228. -/
theorem bz_mem_patches_vals (m : Nat → Nat) :
    bz_mem_patches m 0x10210 = 0xff ∧
    bz_mem_patches m 0x10211 = (m 0x10211 ||| CAN_USE_HEAP) ∧
    bz_mem_patches m 0x10224 = 0x00 ∧
    bz_mem_patches m 0x10225 = 0xfe ∧
    bz_mem_patches m 0x10228 = 0x00 ∧
    bz_mem_patches m 0x10229 = 0x00 ∧
    bz_mem_patches m 0x1022a = 0x02 ∧
    bz_mem_patches m 0x1022b = 0x00 :=
  ⟨rfl, rfl, rfl, rfl, rfl, rfl, rfl, rfl⟩

/-- Above the BDA and the IVT, which both lie below linear 0x10000 when the
stubs are of sane size, the BIOS installation stores are invisible. -/
theorem bz_mem_bios_out (bios : BiosBlobs) (m : Nat → Nat) (x : Nat)
    (hx : 0x10000 ≤ x)
    (hb : bios_intr_next (BDA_START + bios.intfake.length) + bios.int10.length
      ≤ 0x10000) :
    bz_mem_bios bios m x = m x := by
  have hB : BDA_START = 0x400 := rfl
  have h0 : bios_intr_next (BDA_START + 0) = 0x400 := by decide
  have h2 := bios_intr_next_ge (BDA_START + bios.intfake.length)
  unfold bz_mem_bios
  refine Eq.trans (writeBytes_out ?_)
    (Eq.trans (writeBytes_out ?_) (writeBytes_out ?_))
  · rw [ivt_bytes_length]
    omega
  · omega
  · rw [h0]
    omega

/-- With the magic, the protocol version and the file length in order,
load_bzimage succeeds and returns the bz_final_mem memory with the bzImage
entry state. -/
theorem load_bzimage_ok (bios : BiosBlobs) (f : List Nat)
    (cmd : Option (List Nat)) (m0 : Nat → Nat)
    (hm : bz_magic_ok f = true)
    (hv : BOOT_PROTOCOL_REQUIRED ≤ hdr_version f)
    (hlen : bz_setup_size f ≤ f.length) :
    load_bzimage bios f cmd m0 =
      .ok { mem := bz_final_mem bios f cmd m0
            bootSelector := BOOT_LOADER_SELECTOR
            bootIp := BOOT_LOADER_IP + 0x200
            bootSp := BOOT_LOADER_SP } := by
  have h1 : ¬ (bz_magic_ok f = false) := by
    simp [hm]
  have h2 : ¬ (hdr_version f < BOOT_PROTOCOL_REQUIRED) := by
    omega
  have h3 : ¬ (f.length < bz_setup_size f) := by
    omega
  unfold load_bzimage
  rw [if_neg h1, if_neg h2, if_neg h3]

/- ----------------------------------------------------------------
   Theorems for the kernel-loader claims
   ---------------------------------------------------------------- -/

/-- Claim C6. For every bzImage load that succeeds (valid magic, protocol
version at least 0x0202, file long enough for its setup, with the stub blobs
fitting below 0x10000 and the reserved command-line region below 1 MiB):
the loader returns the bzImage entry state boot_selector 0x1000, boot_ip
0x200, boot_sp 0x8000; every unpatched byte of the (n+1)*512-byte setup
region at linear 0x10000 equals the corresponding file byte and the rest of
the 0x10000-0x20000 window is untouched; every payload byte at linear
0x100000 equals the corresponding remainder file byte; and the header in
guest RAM carries type_of_loader 0xff, loadflags or-ed with CAN_USE_HEAP,
heap_end_ptr 0xfe00 and cmd_line_ptr 0x20000, all little-endian. -/
theorem claim_C6_theorem (bios : BiosBlobs) (f : List Nat)
    (cmd : Option (List Nat)) (m0 : Nat → Nat)
    (hm : bz_magic_ok f = true)
    (hv : BOOT_PROTOCOL_REQUIRED ≤ hdr_version f)
    (hlen : bz_setup_size f ≤ f.length)
    (hsz : bz_setup_size f ≤ 0x10000)
    (hcsz : hdr_cmdline_size f ≤ 0xE0000)
    (hb : bios_intr_next (BDA_START + bios.intfake.length) + bios.int10.length
      ≤ 0x10000) :
    load_bzimage bios f cmd m0 =
      .ok { mem := bz_final_mem bios f cmd m0
            bootSelector := BOOT_LOADER_SELECTOR
            bootIp := BOOT_LOADER_IP + 0x200
            bootSp := BOOT_LOADER_SP } ∧
    (∀ i, i < bz_setup_size f → bz_patched (0x10000 + i) = false →
      bz_final_mem bios f cmd m0 (0x10000 + i) = f.getD i 0) ∧
    (∀ i, bz_setup_size f ≤ i → i < 0x10000 →
      bz_final_mem bios f cmd m0 (0x10000 + i) = m0 (0x10000 + i)) ∧
    (∀ j, j < f.length - bz_setup_size f →
      bz_final_mem bios f cmd m0 (0x100000 + j) = f.getD (bz_setup_size f + j) 0) ∧
    (bz_final_mem bios f cmd m0 0x10210 = 0xff ∧
     bz_final_mem bios f cmd m0 0x10211 = (f.getD 0x211 0 ||| CAN_USE_HEAP) ∧
     bz_final_mem bios f cmd m0 0x10224 = 0x00 ∧
     bz_final_mem bios f cmd m0 0x10225 = 0xfe ∧
     bz_final_mem bios f cmd m0 0x10228 = 0x00 ∧
     bz_final_mem bios f cmd m0 0x10229 = 0x00 ∧
     bz_final_mem bios f cmd m0 0x1022a = 0x02 ∧
     bz_final_mem bios f cmd m0 0x1022b = 0x00) := by
  have hSge := bz_setup_size_ge f
  refine ⟨load_bzimage_ok bios f cmd m0 hm hv hlen, ?_, ?_, ?_, ?_⟩
  · -- unpatched setup bytes
    intro i hi hp
    unfold bz_final_mem
    refine Eq.trans (bz_mem_bios_out bios _ _ (by omega) hb) ?_
    refine Eq.trans (bz_mem_patches_out _ _ hp) ?_
    cases cmd with
    | none =>
      rw [bz_mem_cmdline_none]
      refine Eq.trans (bz_mem_kernel_out f _ _ (by omega)) ?_
      exact bz_mem_setup_in f m0 i hi hlen
    | some k =>
      refine Eq.trans (bz_mem_cmdline_out f k _ _ (by omega)) ?_
      refine Eq.trans (bz_mem_kernel_out f _ _ (by omega)) ?_
      exact bz_mem_setup_in f m0 i hi hlen
  · -- the rest of the setup window is untouched
    intro i hge hlt
    have hp : bz_patched (0x10000 + i) = false :=
      bz_patched_false_of_ge _ (by omega)
    unfold bz_final_mem
    refine Eq.trans (bz_mem_bios_out bios _ _ (by omega) hb) ?_
    refine Eq.trans (bz_mem_patches_out _ _ hp) ?_
    cases cmd with
    | none =>
      rw [bz_mem_cmdline_none]
      refine Eq.trans (bz_mem_kernel_out f _ _ (by omega)) ?_
      exact bz_mem_setup_out f m0 _ (by omega)
    | some k =>
      refine Eq.trans (bz_mem_cmdline_out f k _ _ (by omega)) ?_
      refine Eq.trans (bz_mem_kernel_out f _ _ (by omega)) ?_
      exact bz_mem_setup_out f m0 _ (by omega)
  · -- payload bytes
    intro j hj
    have hp : bz_patched (0x100000 + j) = false :=
      bz_patched_false_of_ge _ (by omega)
    unfold bz_final_mem
    refine Eq.trans (bz_mem_bios_out bios _ _ (by omega) hb) ?_
    refine Eq.trans (bz_mem_patches_out _ _ hp) ?_
    cases cmd with
    | none =>
      rw [bz_mem_cmdline_none]
      exact bz_mem_kernel_in f _ j hj
    | some k =>
      refine Eq.trans (bz_mem_cmdline_out f k _ _ (by omega)) ?_
      exact bz_mem_kernel_in f _ j hj
  · -- the patched header bytes
    have hunder : ∀ x, 0x10000 ≤ x → x < 0x10000 + bz_setup_size f → x < 0x20000 →
        bz_mem_cmdline f cmd (bz_mem_kernel f (bz_mem_setup f m0)) x =
          f.getD (x - 0x10000) 0 := by
      intro x h1 h2 h3
      have hx : x = 0x10000 + (x - 0x10000) := by omega
      have hcore : bz_mem_kernel f (bz_mem_setup f m0) x = f.getD (x - 0x10000) 0 := by
        refine Eq.trans (bz_mem_kernel_out f _ _ (by omega)) ?_
        have hs := bz_mem_setup_in f m0 (x - 0x10000) (by omega) hlen
        rw [← hx] at hs
        exact hs
      cases cmd with
      | none => exact hcore
      | some k => exact Eq.trans (bz_mem_cmdline_out f k _ _ (by omega)) hcore
    unfold bz_final_mem
    refine ⟨?_, ?_, ?_, ?_, ?_, ?_, ?_, ?_⟩ <;>
      refine Eq.trans (bz_mem_bios_out bios _ _ (by omega) hb) ?_
    · exact (bz_mem_patches_vals _).1
    · refine Eq.trans (bz_mem_patches_vals _).2.1 ?_
      rw [hunder 0x10211 (by omega) (by omega) (by omega)]
    · exact (bz_mem_patches_vals _).2.2.1
    · exact (bz_mem_patches_vals _).2.2.2.1
    · exact (bz_mem_patches_vals _).2.2.2.2.1
    · exact (bz_mem_patches_vals _).2.2.2.2.2.1
    · exact (bz_mem_patches_vals _).2.2.2.2.2.2.1
    · exact (bz_mem_patches_vals _).2.2.2.2.2.2.2

/-- Claim C6, witness: claim_C6_theorem discharged on the concrete synthetic
bzImage bzFileA (setup_sects 1) with no command line: the loader returns the
bzImage entry state, the setup byte at offset 0x205 and the payload byte at
offset 1 read back from their protocol-mandated addresses, and the
type_of_loader patch is visible at 0x10210. -/
theorem claim_C6_witness :
    load_bzimage biosSample bzFileA none zeroMem =
      .ok { mem := bz_final_mem biosSample bzFileA none zeroMem
            bootSelector := BOOT_LOADER_SELECTOR
            bootIp := BOOT_LOADER_IP + 0x200
            bootSp := BOOT_LOADER_SP } ∧
    bz_final_mem biosSample bzFileA none zeroMem (0x10000 + 0x205) =
      bzFileA.getD 0x205 0 ∧
    bz_final_mem biosSample bzFileA none zeroMem (0x100000 + 1) =
      bzFileA.getD (bz_setup_size bzFileA + 1) 0 ∧
    bz_final_mem biosSample bzFileA none zeroMem 0x10210 = 0xff := by
  have h := claim_C6_theorem biosSample bzFileA none zeroMem (by decide)
    (by decide) (by decide) (by decide) (by decide) (by decide)
  exact ⟨h.1, h.2.1 0x205 (by decide) (by decide), h.2.2.2.1 1 (by decide),
    h.2.2.2.2.1⟩

/-- Claim C7. For every command line whose length including the terminating
NUL exceeds the positive cmdline_size of the header of a loadable bzImage,
the bytes of the reserved region at linear 0x20000 after the load are the
first cmdline_size - 1 command-line characters followed by zero bytes from
index cmdline_size - 1 up to the end of the region. -/
theorem claim_C7_theorem (bios : BiosBlobs) (f k : List Nat) (m0 : Nat → Nat)
    (hm : bz_magic_ok f = true)
    (hv : BOOT_PROTOCOL_REQUIRED ≤ hdr_version f)
    (hlen : bz_setup_size f ≤ f.length)
    (hb : bios_intr_next (BDA_START + bios.intfake.length) + bios.int10.length
      ≤ 0x10000)
    (hC : 0 < hdr_cmdline_size f)
    (htr : hdr_cmdline_size f < k.length + 1) :
    load_bzimage bios f (some k) m0 =
      .ok { mem := bz_final_mem bios f (some k) m0
            bootSelector := BOOT_LOADER_SELECTOR
            bootIp := BOOT_LOADER_IP + 0x200
            bootSp := BOOT_LOADER_SP } ∧
    ∀ j, j < hdr_cmdline_size f →
      bz_final_mem bios f (some k) m0 (0x20000 + j) =
        if j < hdr_cmdline_size f - 1 then k.getD j 0 else 0 := by
  refine ⟨load_bzimage_ok bios f (some k) m0 hm hv hlen, ?_⟩
  intro j hj
  have hp : bz_patched (0x20000 + j) = false :=
    bz_patched_false_of_ge _ (by omega)
  unfold bz_final_mem
  refine Eq.trans (bz_mem_bios_out bios _ _ (by omega) hb) ?_
  refine Eq.trans (bz_mem_patches_out _ _ hp) ?_
  exact bz_mem_cmdline_in_trunc f k _ j (by omega) hC hj

/-- Claim C7, witness: claim_C7_theorem discharged on bzFileB, whose header
has cmdline_size 8, with the ten-character command line abcdefghij: the
bytes at linear 0x20000 are a, then g at index 6, then the NUL terminator
at index 7 = cmdline_size - 1. -/
theorem claim_C7_witness :
    bz_final_mem biosSample bzFileB (some cmdlineSampleLong) zeroMem
      (0x20000 + 0) = 97 ∧
    bz_final_mem biosSample bzFileB (some cmdlineSampleLong) zeroMem
      (0x20000 + 6) = 103 ∧
    bz_final_mem biosSample bzFileB (some cmdlineSampleLong) zeroMem
      (0x20000 + 7) = 0 := by
  have h := claim_C7_theorem biosSample bzFileB cmdlineSampleLong zeroMem
    (by decide) (by decide) (by decide) (by decide) (by decide) (by decide)
  refine ⟨Eq.trans (h.2 0 (by decide)) (by decide),
    Eq.trans (h.2 6 (by decide)) (by decide),
    Eq.trans (h.2 7 (by decide)) (by decide)⟩

/-- Claim C3, counterexample. The claim says a header with the HdrS magic
but protocol version below 0x0202 makes the loader fail hard, with only a
magic mismatch falling through to the flat-binary branch; but on the 1 KiB
buffer bzFileOld (magic present, version 0x0201) load_bzimage returns the
same soft false as a magic mismatch — after a warning — and the caller falls
through to the flat-binary branch, which succeeds with the flat entry
state. -/
theorem claim_C3_counterexample :
    (load_bzimage biosSample bzFileOld none zeroMem).isSoft = true ∧
    (kvm_load_kernel biosSample bzFileOld none zeroMem).entry =
      some (BOOT_LOADER_SELECTOR, BOOT_LOADER_IP, BOOT_LOADER_SP) := by
  constructor
  · decide
  · decide

/-- Claim C3, amended: an input whose header carries the HdrS magic but a
protocol version below 0x0202 makes load_bzimage print a warning and return
the same soft "not a bzImage" signal as a magic mismatch, so the caller
falls through to the flat-binary branch, which succeeds; the process does
not terminate over the old version. -/
theorem claim_C3_theorem (bios : BiosBlobs) (f : List Nat)
    (cmd : Option (List Nat)) (m0 : Nat → Nat)
    (hm : bz_magic_ok f = true)
    (hv : hdr_version f < BOOT_PROTOCOL_REQUIRED) :
    load_bzimage bios f cmd m0 = .soft ∧
    (kvm_load_kernel bios f cmd m0).entry =
      some (BOOT_LOADER_SELECTOR, BOOT_LOADER_IP, BOOT_LOADER_SP) := by
  have h1 : ¬ (bz_magic_ok f = false) := by
    simp [hm]
  have hsoft : load_bzimage bios f cmd m0 = .soft := by
    unfold load_bzimage
    rw [if_neg h1, if_pos hv]
  refine ⟨hsoft, ?_⟩
  unfold kvm_load_kernel
  rw [hsoft]
  rfl

/-- Claim C3, witness: claim_C3_theorem discharged on the concrete 1 KiB
too-old-version buffer bzFileOld. -/
theorem claim_C3_witness :
    load_bzimage biosSample bzFileOld none zeroMem = BzOutcome.soft ∧
    (kvm_load_kernel biosSample bzFileOld none zeroMem).entry =
      some (BOOT_LOADER_SELECTOR, BOOT_LOADER_IP, BOOT_LOADER_SP) :=
  claim_C3_theorem biosSample bzFileOld none zeroMem (by decide) (by decide)

/-- Claim C10, counterexample. The claim says kernel loading succeeds for
every file that can be opened; but on the 528-byte truncated bzImage
bzFileShort (valid magic and version, defaulted setup_sects 4, so a
2560-byte setup read against a 528-byte file) the loader dies in the setup
read, so loading does not succeed. -/
theorem claim_C10_counterexample :
    (kvm_load_kernel biosSample bzFileShort none zeroMem).isFatalRead = true := by
  decide

/-- Claim C10, amended: the flat-binary branch unconditionally reports
success with boot_selector 0x1000, boot_ip 0, boot_sp 0x8000 (even for an
empty file), so the final "not a valid bzImage or flat binary" fatal branch
of kvm_load_kernel is unreachable, and loading as a whole succeeds for every
opened file on which the bzImage recognizer does not die mid-load reading
the setup. -/
theorem claim_C10_theorem (bios : BiosBlobs) (f : List Nat)
    (cmd : Option (List Nat)) (m0 : Nat → Nat) :
    ((load_flat_binary f m0).map (fun st => (st.bootSelector, st.bootIp, st.bootSp)) =
      some (BOOT_LOADER_SELECTOR, BOOT_LOADER_IP, BOOT_LOADER_SP)) ∧
    (kvm_load_kernel bios f cmd m0).isNotValid = false ∧
    ((load_bzimage bios f cmd m0).isFatalRead = false →
      (kvm_load_kernel bios f cmd m0).entry ≠ none) := by
  refine ⟨rfl, ?_, ?_⟩
  · unfold kvm_load_kernel
    cases h : load_bzimage bios f cmd m0 <;> rfl
  · intro hnf
    unfold kvm_load_kernel
    cases h : load_bzimage bios f cmd m0 with
    | soft => simp [load_flat_binary, KernOutcome.entry]
    | fatalRead =>
      rw [h] at hnf
      simp [BzOutcome.isFatalRead] at hnf
    | ok st => simp [KernOutcome.entry]

/-- Claim C10, witness: claim_C10_theorem discharged at the empty file,
whose bzImage recognition is soft (no magic), so loading succeeds through
the flat-binary branch. -/
theorem claim_C10_witness :
    ((load_flat_binary ([] : List Nat) zeroMem).map
      (fun st => (st.bootSelector, st.bootIp, st.bootSp)) =
      some (BOOT_LOADER_SELECTOR, BOOT_LOADER_IP, BOOT_LOADER_SP)) ∧
    (kvm_load_kernel biosSample [] none zeroMem).entry ≠ none := by
  have h := claim_C10_theorem biosSample [] none zeroMem
  exact ⟨h.1, h.2.2 (by decide)⟩
